import Mathlib

/-!
Verification of the price-taker model builder
(`idaes/apps/grid_integration/multiperiod/price_taker_model.py`).

The Python module is declarative glue around external collaborators
(pandas, scikit-learn KMeans, kneed, Pyomo).  We embed the module's own
logic shallowly: prices are rationals, the daily table is a list of day
columns, the k-means collaborator is an explicit function parameter that
threads the global numpy RNG state (modelled as a natural number), and
Python exceptions are `Except String`.
-/

namespace PriceTaker

/-- Faithful translation of the while loop in `generate_daily_data`
(price_taker_model.py, lines 74-81).  Starting from slice bounds `i = 0`,
`j = horizon_length`, the loop appends the slice `raw_data[i:j]` as the next
day column while `j <= len(raw_data)`, then advances `i := j`,
`j := j + horizon_length`.  The `0 < h` conjunct makes the recursion total in
Lean; the Python loop does not terminate when the horizon is `0`, and every
statement below assumes a positive horizon. -/
def generate_daily_data_loop {α : Type} (raw : List α) (h i j : Nat) : List (List α) :=
  if hc : 0 < h ∧ j ≤ raw.length then
    ((raw.drop i).take (j - i)) :: generate_daily_data_loop raw h j (j + h)
  else
    []
termination_by raw.length + 1 - j
decreasing_by
  omega

/-- Method `generate_daily_data` (price_taker_model.py, lines 69-83): pivot a raw
chronological series into consecutive day columns of `h` samples each (the
`day_list` argument of the Python method only labels the columns `1, 2, ...`,
which here is the 1-based position in the returned list). -/
def generate_daily_data {α : Type} (h : Nat) (raw : List α) : List (List α) :=
  generate_daily_data_loop raw h 0 h

theorem generate_daily_data_loop_eq {α : Type} (h : Nat) (hh : 0 < h) :
    ∀ (n : Nat) (raw : List α) (i : Nat), raw.length - i ≤ n →
      generate_daily_data_loop raw h i (i + h) =
        (List.range ((raw.length - i) / h)).map
          (fun m => (raw.drop (i + m * h)).take h) := by
  intro n
  induction n with
  | zero =>
    intro raw i hle
    rw [generate_daily_data_loop]
    have hfalse : ¬ (0 < h ∧ i + h ≤ raw.length) := by omega
    rw [dif_neg hfalse]
    have hz : (raw.length - i) / h = 0 := Nat.div_eq_of_lt (by omega)
    rw [hz]
    simp
  | succ n ih =>
    intro raw i hle
    rw [generate_daily_data_loop]
    by_cases hcase : i + h ≤ raw.length
    · rw [dif_pos ⟨hh, hcase⟩]
      have htail := ih raw (i + h) (by omega)
      have harith : i + h + h = (i + h) + h := rfl
      rw [harith, htail]
      have hdiv : (raw.length - i) / h = (raw.length - (i + h)) / h + 1 := by
        have hsum : raw.length - i = (raw.length - (i + h)) + h := by omega
        rw [hsum, Nat.add_div_right _ hh]
      rw [hdiv, List.range_succ_eq_map]
      simp only [List.map_cons, List.map_map]
      congr 1
      · have h3 : i + h - i = h := by omega
        rw [h3]
        simp
      · apply List.map_congr_left
        intro m _
        simp only [Function.comp_apply]
        have : i + h + m * h = i + (m + 1) * h := by ring
        rw [this]
    · rw [dif_neg (by omega)]
      have hz : (raw.length - i) / h = 0 := Nat.div_eq_of_lt (by omega)
      rw [hz]
      simp

theorem generate_daily_data_eq {α : Type} (h : Nat) (raw : List α) (hh : 0 < h) :
    generate_daily_data h raw =
      (List.range (raw.length / h)).map (fun m => (raw.drop (m * h)).take h) := by
  have := generate_daily_data_loop_eq h hh raw.length raw 0 (by omega)
  simp only [Nat.zero_add, Nat.sub_zero] at this
  simpa [generate_daily_data] using this

/-- C1: for every horizon `h > 0` and raw series of length `L`, the daily
reshaper produces exactly `L / h` complete day columns, the column for day
`d` (1-based, stored at position `d - 1`) is the slice
`raw[(d-1)*h : d*h]`, it has exactly `h` entries, and its entry at offset
`s` is the raw sample at index `(d-1)*h + s` (original chronological
order); any final window shorter than `h` is discarded. -/
theorem generate_daily_data_spec {α : Type} (h : Nat) (raw : List α) (hh : 0 < h) :
    (generate_daily_data h raw).length = raw.length / h ∧
    ∀ d : Nat, 1 ≤ d → d ≤ raw.length / h →
      (generate_daily_data h raw)[d - 1]? =
        some ((raw.drop ((d - 1) * h)).take h) ∧
      ((raw.drop ((d - 1) * h)).take h).length = h ∧
      ∀ s : Nat, s < h →
        ((raw.drop ((d - 1) * h)).take h)[s]? = raw[(d - 1) * h + s]? := by
  rw [generate_daily_data_eq h raw hh]
  refine ⟨by simp, ?_⟩
  intro d hd1 hdmax
  have hidx : d - 1 < raw.length / h := by omega
  have hmul : d * h ≤ raw.length := (Nat.le_div_iff_mul_le hh).mp hdmax
  have hend : (d - 1) * h + h ≤ raw.length := by
    have h2 : d - 1 + 1 = d := by omega
    have h1 : (d - 1) * h + h = d * h := by
      calc (d - 1) * h + h = (d - 1 + 1) * h := by ring
        _ = d * h := by rw [h2]
    rw [h1]
    exact hmul
  refine ⟨?_, ?_, ?_⟩
  · rw [List.getElem?_map, List.getElem?_range hidx]
    rfl
  · rw [List.length_take, List.length_drop]
    omega
  · intro s hs
    rw [List.getElem?_take_of_lt hs, List.getElem?_drop]

/-- Witness for `generate_daily_data_spec` at horizon 2 on a five-sample
series: two complete day columns, the trailing sample discarded. -/
theorem generate_daily_data_spec_witness :
    (generate_daily_data 2 ([10, 20, 30, 40, 50] : List Int)).length =
      ([10, 20, 30, 40, 50] : List Int).length / 2 ∧
    ∀ d : Nat, 1 ≤ d → d ≤ ([10, 20, 30, 40, 50] : List Int).length / 2 →
      (generate_daily_data 2 ([10, 20, 30, 40, 50] : List Int))[d - 1]? =
        some ((([10, 20, 30, 40, 50] : List Int).drop ((d - 1) * 2)).take 2) ∧
      ((([10, 20, 30, 40, 50] : List Int).drop ((d - 1) * 2)).take 2).length = 2 ∧
      ∀ s : Nat, s < 2 →
        ((([10, 20, 30, 40, 50] : List Int).drop ((d - 1) * 2)).take 2)[s]? =
          ([10, 20, 30, 40, 50] : List Int)[(d - 1) * 2 + s]? :=
  generate_daily_data_spec 2 [10, 20, 30, 40, 50] (by decide)

/-! ## Constructor and property setters (`PriceTakerModel.__init__`) -/

/-- The attribute state of a `PriceTakerModel` instance touched by the
constructor and the two property setters (lines 46-67). -/
structure PriceTakerState where
  seedAttr : Int
  horizonAttr : Int
deriving Repr, DecidableEq

/-- Constructor `PriceTakerModel.__init__` (lines 46-49), modelled as fallible because a
Python constructor may raise.  The body assigns the private attributes
`self._seed` and `self._horizon_length` directly, so it never raises: in
particular it bypasses the `horizon_length` property setter and the
validation living there. -/
def priceTakerInit (seed : Int) (horizon_length : Int) :
    Except String PriceTakerState :=
  .ok { seedAttr := seed, horizonAttr := horizon_length }

/-- The `horizon_length` property setter (lines 63-67): raises a
`ValueError` when the assigned value is not positive, otherwise stores it. -/
def horizon_length_setter (m : PriceTakerState) (value : Int) :
    Except String PriceTakerState :=
  if value ≤ 0 then
    .error "ValueError: horizon_length must be > 0"
  else
    .ok { m with horizonAttr := value }

/-- C3 counterexample: constructing a `PriceTakerModel` with
`horizon_length = -5` does not fail with a configuration error; the
constructor stores the non-positive value unvalidated because `__init__`
writes `self._horizon_length` directly instead of assigning through the
validating property. -/
theorem priceTakerInit_accepts_nonpositive :
    priceTakerInit 20 (-5) = .ok { seedAttr := 20, horizonAttr := -5 } := rfl

/-- C3 (amended): the constructor never raises and stores any
`horizon_length`, positive or not; validation happens only in the
`horizon_length` property setter, which raises a `ValueError` exactly when
the assigned value is `≤ 0` and stores the value otherwise. -/
theorem priceTakerInit_and_setter_spec (seed hl value : Int) (m : PriceTakerState) :
    priceTakerInit seed hl = .ok { seedAttr := seed, horizonAttr := hl } ∧
    (value ≤ 0 →
      horizon_length_setter m value =
        .error "ValueError: horizon_length must be > 0") ∧
    (0 < value →
      horizon_length_setter m value = .ok { m with horizonAttr := value }) := by
  refine ⟨rfl, fun hv => ?_, fun hv => ?_⟩
  · simp only [horizon_length_setter]
    rw [if_pos hv]
  · simp only [horizon_length_setter]
    rw [if_neg (by omega)]

/-- Witness for `priceTakerInit_and_setter_spec` at concrete values. -/
theorem priceTakerInit_and_setter_spec_witness :
    priceTakerInit 20 24 = .ok { seedAttr := 20, horizonAttr := 24 } ∧
    horizon_length_setter { seedAttr := 20, horizonAttr := 24 } 0 =
      .error "ValueError: horizon_length must be > 0" ∧
    horizon_length_setter { seedAttr := 20, horizonAttr := 24 } 12 =
      .ok { seedAttr := 20, horizonAttr := 12 } :=
  ⟨(priceTakerInit_and_setter_spec 20 24 0 { seedAttr := 20, horizonAttr := 24 }).1,
   (priceTakerInit_and_setter_spec 20 24 0 { seedAttr := 20, horizonAttr := 24 }).2.1
     (by decide),
   (priceTakerInit_and_setter_spec 20 24 12 { seedAttr := 20, horizonAttr := 24 }).2.2
     (by decide)⟩

/-! ## Ramping constraints (`add_ramping_constraints`) -/

/-- Right-hand side of `ramp_up_con_rule` (lines 370-376), as a function of
the per-period aggregate `startup` and `op_mode` signals.  The rule is
attached for `t` in `RangeSet(2, len(period) - 1)` and compares consecutive
entries of the realized period list; here `t` indexes that list with `t - 1`
the preceding entry. -/
def ramp_up_rhs (startup_limit ramp_up_limit minimum_opt_limit : Rat)
    (startupSig op_mode : Nat → Rat) (t : Nat) : Rat :=
  startup_limit * startupSig t - minimum_opt_limit * startupSig (t - 1)
    + ramp_up_limit * op_mode t
    + minimum_opt_limit * (op_mode t - op_mode (t - 1))

/-- The ramp-up constraint of `ramp_up_con_rule` at one period. -/
def ramp_up_con (startup_limit ramp_up_limit minimum_opt_limit : Rat)
    (opt_power startupSig op_mode : Nat → Rat) (t : Nat) : Prop :=
  opt_power t - opt_power (t - 1) ≤
    ramp_up_rhs startup_limit ramp_up_limit minimum_opt_limit startupSig op_mode t

/-- C6: with `startup_limit = 100`, `ramp_up_limit = 110`,
`minimum_opt_limit = 0`, whenever the operating mode is unchanged between
periods `t - 1` and `t`, the ramp-up constraint is algebraically the bound
`opt_power[t] - opt_power[t-1] <= 100 * startup[t] + 110 * op_mode[t]`. -/
theorem ramp_up_con_reduces (opt_power startupSig op_mode : Nat → Rat) (t : Nat)
    (hmode : op_mode t = op_mode (t - 1)) :
    ramp_up_con 100 110 0 opt_power startupSig op_mode t ↔
      opt_power t - opt_power (t - 1) ≤ 100 * startupSig t + 110 * op_mode t := by
  unfold ramp_up_con ramp_up_rhs
  rw [hmode]
  constructor <;> intro hle <;> linarith

/-- Witness for `ramp_up_con_reduces` with concrete signals at `t = 3`. -/
theorem ramp_up_con_reduces_witness :
    ramp_up_con 100 110 0 (fun n => (n : Rat)) (fun _ => 1) (fun _ => 1) 3 ↔
      ((3 : Rat) - (2 : Rat) ≤ 100 * 1 + 110 * 1) := by
  have hbase :=
    ramp_up_con_reduces (fun n => (n : Rat)) (fun _ => 1) (fun _ => 1) 3 rfl
  simpa using hbase

/-! ## Cash-flow objective (`build_cashflows`) -/

/-- A cash-flow expression, as a function of the model quantities it can
mention: `(NET_PROFIT, CAPEX)`. -/
abbrev CashExpr := Rat → Rat → Rat

/-- Value `constant_cf_factor` (line 526): the discount-rate annuity factor. -/
def constant_cf_factor (discount_rate : Rat) (lifetime : Nat) : Rat :=
  (1 - (1 + discount_rate) ^ (-(lifetime : Int))) / discount_rate

/-- The `NPV` expression (line 527). -/
def NPV_expr (discount_rate : Rat) (lifetime : Nat) : CashExpr :=
  fun net_profit capex =>
    constant_cf_factor discount_rate lifetime * net_profit - capex

/-- The `Annualized_NPV` expression (lines 528-530). -/
def Annualized_NPV_expr (discount_rate : Rat) (lifetime : Nat) : CashExpr :=
  fun net_profit capex =>
    net_profit - (1 / constant_cf_factor discount_rate lifetime) * capex

/-- The `NET_PROFIT` expression: the net-profit variable itself. -/
def NET_PROFIT_expr : CashExpr := fun net_profit _ => net_profit

/-- Pyomo objective sense. -/
inductive Sense where
  | maximize
  | minimize
deriving Repr, DecidableEq

/-- The objective attached by `build_cashflows` (lines 532-539): the
`if`/`elif` chain attaches one maximization objective for each of the three
recognized strings, and silently attaches nothing for any other string. -/
def build_cashflows_objective (discount_rate : Rat) (lifetime : Nat)
    (objective : String) : Option (CashExpr × Sense) :=
  if objective = "NPV" then
    some (NPV_expr discount_rate lifetime, Sense.maximize)
  else if objective = "Annualized NPV" then
    some (Annualized_NPV_expr discount_rate lifetime, Sense.maximize)
  else if objective = "Net Profit" then
    some (NET_PROFIT_expr, Sense.maximize)
  else
    none

/-- C8: `build_cashflows` attaches exactly one maximization objective for
each of the three recognized configuration strings, and for
`objective = "Net Profit"` the attached expression is the net-profit
expression, which differs from both the NPV and the annualized-NPV
expressions (the latter provided the annuity factor is nonzero). -/
theorem build_cashflows_objective_spec (discount_rate : Rat) (lifetime : Nat)
    (hcf : constant_cf_factor discount_rate lifetime ≠ 0) :
    build_cashflows_objective discount_rate lifetime "NPV" =
      some (NPV_expr discount_rate lifetime, Sense.maximize) ∧
    build_cashflows_objective discount_rate lifetime "Annualized NPV" =
      some (Annualized_NPV_expr discount_rate lifetime, Sense.maximize) ∧
    build_cashflows_objective discount_rate lifetime "Net Profit" =
      some (NET_PROFIT_expr, Sense.maximize) ∧
    NET_PROFIT_expr ≠ NPV_expr discount_rate lifetime ∧
    NET_PROFIT_expr ≠ Annualized_NPV_expr discount_rate lifetime := by
  refine ⟨rfl, rfl, rfl, ?_, ?_⟩
  · intro hcontra
    have h01 := congrFun (congrFun hcontra 0) 1
    simp [NET_PROFIT_expr, NPV_expr] at h01
  · intro hcontra
    have h01 := congrFun (congrFun hcontra 0) 1
    simp [NET_PROFIT_expr, Annualized_NPV_expr] at h01
    exact hcf h01

/-- Witness for `build_cashflows_objective_spec` at rate 1 over one year,
where the annuity factor is `1/2`. -/
theorem build_cashflows_objective_spec_witness :
    build_cashflows_objective 1 1 "NPV" =
      some (NPV_expr 1 1, Sense.maximize) ∧
    build_cashflows_objective 1 1 "Annualized NPV" =
      some (Annualized_NPV_expr 1 1, Sense.maximize) ∧
    build_cashflows_objective 1 1 "Net Profit" =
      some (NET_PROFIT_expr, Sense.maximize) ∧
    NET_PROFIT_expr ≠ NPV_expr 1 1 ∧
    NET_PROFIT_expr ≠ Annualized_NPV_expr 1 1 :=
  build_cashflows_objective_spec 1 1 (by
    norm_num [constant_cf_factor])

/-! ## Centroid noise clamp (`cluster_lmp_data`, lines 189-193) -/

/-- The `1e-4` noise threshold of the centroid clamp. -/
def clampThreshold : Rat := 1 / 10000

/-- The body of the clamp: `if centroids[d][t] < 1e-4: centroids[d][t] = 0`. -/
def clamp_value (x : Rat) : Rat := if x < clampThreshold then 0 else x

/-- The inner clamp loop `for t in range(24)` (lines 191-193) on one
centroid profile.  The loop touches positions `0, 1, ..., 23` in order and
each iteration reads and writes only position `t`, so it is the pointwise
clamp of the first 24 entries; numpy raises an `IndexError` at the first
`t` past the end of the profile, i.e. exactly when the profile is exhausted
before the countdown ends. -/
def clamp_first (k : Nat) (c : List Rat) : Except String (List Rat) :=
  match k, c with
  | 0, c => .ok c
  | _ + 1, [] =>
    .error "IndexError: hour index is out of bounds for centroid profile"
  | k + 1, x :: xs =>
    match clamp_first k xs with
    | .error e => .error e
    | .ok ys => .ok (clamp_value x :: ys)

/-- The outer clamp loop `for d in range(n_clusters)` (line 190): clamp the
first `n_clusters` centroid rows (k-means returns exactly `n_clusters`
rows, so the row access never goes out of bounds in context). -/
def clamp_centroids (n_clusters : Nat) (cs : List (List Rat)) :
    Except String (List (List Rat)) :=
  match n_clusters, cs with
  | 0, _ => .ok cs
  | _ + 1, [] =>
    .error "IndexError: cluster index is out of bounds for centroid array"
  | n + 1, row :: rows =>
    match clamp_first 24 row with
    | .error e => .error e
    | .ok row2 =>
      match clamp_centroids n rows with
      | .error e => .error e
      | .ok rows2 => .ok (row2 :: rows2)

theorem clamp_first_of_le :
    ∀ (k : Nat) (c : List Rat), k ≤ c.length →
      clamp_first k c = .ok ((c.take k).map clamp_value ++ c.drop k) := by
  intro k
  induction k with
  | zero => intro c _; simp [clamp_first]
  | succ k ih =>
    intro c hc
    cases c with
    | nil => simp at hc
    | cons x xs =>
      have hxs : k ≤ xs.length := by
        simp at hc
        omega
      simp only [clamp_first, ih xs hxs]
      simp

theorem clamp_first_oob :
    ∀ (k : Nat) (c : List Rat), c.length < k →
      clamp_first k c =
        .error "IndexError: hour index is out of bounds for centroid profile" := by
  intro k
  induction k with
  | zero => intro c hc; omega
  | succ k ih =>
    intro c hc
    cases c with
    | nil => rfl
    | cons x xs =>
      have hxs : xs.length < k := by
        simp at hc
        omega
      simp only [clamp_first, ih xs hxs]

theorem clamp_centroids_ok (cs : List (List Rat))
    (h : ∀ c ∈ cs, 24 ≤ c.length) :
    clamp_centroids cs.length cs =
      .ok (cs.map (fun c => (c.take 24).map clamp_value ++ c.drop 24)) := by
  induction cs with
  | nil => rfl
  | cons c rest ih =>
    have hc : 24 ≤ c.length := h c (by simp)
    have hrest := ih (fun x hx => h x (by simp [hx]))
    simp only [List.length_cons, clamp_centroids, clamp_first_of_le 24 c hc, hrest,
      List.map_cons]

/-- C10: the clamp loop runs over hour indices `0 .. 23` regardless of the
configured horizon.  For centroid profiles of length exactly 24 it zeroes
every entry strictly below `1e-4` (negative prices included, last conjunct)
and leaves the rest unchanged; for profiles shorter than 24 (horizon below
24) the loop indexes past the end of the profile and raises an IndexError;
for profiles longer than 24 (horizon above 24) the entries from hour 24 on
are never clamped. -/
theorem clamp_centroids_spec (hl : Nat) (cs : List (List Rat))
    (hrows : ∀ c ∈ cs, c.length = hl) :
    (hl = 24 →
      clamp_centroids cs.length cs = .ok (cs.map (fun c => c.map clamp_value))) ∧
    (hl < 24 → ∀ c0 rest, cs = c0 :: rest →
      clamp_centroids cs.length cs =
        .error "IndexError: hour index is out of bounds for centroid profile") ∧
    (24 < hl →
      clamp_centroids cs.length cs =
        .ok (cs.map (fun c => (c.take 24).map clamp_value ++ c.drop 24))) ∧
    (∀ x : Rat, x < 0 → clamp_value x = 0) := by
  refine ⟨?_, ?_, ?_, ?_⟩
  · intro h24
    rw [clamp_centroids_ok cs (fun c hc => by rw [hrows c hc, h24])]
    congr 1
    apply List.map_congr_left
    intro c hc
    have hlen : c.length = 24 := by rw [hrows c hc, h24]
    rw [List.take_of_length_le (by omega), List.drop_eq_nil_of_le (by omega)]
    simp
  · intro hlt c0 rest hcs
    subst hcs
    have h0 : c0.length < 24 := by rw [hrows c0 (by simp)]; exact hlt
    simp only [List.length_cons, clamp_centroids, clamp_first_oob 24 c0 h0]
  · intro hgt
    exact clamp_centroids_ok cs (fun c hc => by rw [hrows c hc]; omega)
  · intro x hx
    have : x < clampThreshold := by
      have hpos : (0 : Rat) < clampThreshold := by norm_num [clampThreshold]
      exact hx.trans hpos
    rw [clamp_value, if_pos this]

/-- Witness for `clamp_centroids_spec`: a 24-entry profile headed by a
negative price is clamped pointwise; a 2-entry profile (horizon 2) raises
the IndexError; a 25-entry profile keeps its final sub-threshold entry. -/
theorem clamp_centroids_spec_witness :
    clamp_centroids 1 [(-3 : Rat) :: List.replicate 23 1] =
      .ok [(0 : Rat) :: List.replicate 23 1] ∧
    clamp_centroids 1 [[(1 : Rat), 2]] =
      .error "IndexError: hour index is out of bounds for centroid profile" ∧
    clamp_centroids 1 [List.replicate 24 (1 : Rat) ++ [-(5 : Rat)]] =
      .ok [List.replicate 24 (1 : Rat) ++ [-(5 : Rat)]] := by
  refine ⟨?_, ?_, ?_⟩
  · have h := (clamp_centroids_spec 24 [(-3 : Rat) :: List.replicate 23 1]
      (by intro c hc; simp at hc; subst hc; simp)).1 rfl
    simp only [List.length_cons, List.length_nil] at h
    rw [h]
    norm_num [clamp_value, clampThreshold]
  · have h := (clamp_centroids_spec 2 [[(1 : Rat), 2]]
      (by intro c hc; simp at hc; subst hc; rfl)).2.1 (by omega)
      [(1 : Rat), 2] [] rfl
    simpa using h
  · have h := (clamp_centroids_spec 25 [List.replicate 24 (1 : Rat) ++ [-(5 : Rat)]]
      (by intro c hc; simp at hc; subst hc; simp)).2.2.1 (by omega)
    simp only [List.length_cons, List.length_nil] at h
    rw [h]
    have htake : (List.replicate 24 (1 : Rat) ++ [-(5 : Rat)]).take 24 =
        List.replicate 24 (1 : Rat) := by
      rw [show (24 : Nat) = (List.replicate 24 (1 : Rat)).length from by simp]
      exact List.take_left _ _
    have hdrop : (List.replicate 24 (1 : Rat) ++ [-(5 : Rat)]).drop 24 =
        [-(5 : Rat)] := by
      rw [show (24 : Nat) = (List.replicate 24 (1 : Rat)).length from by simp]
      exact List.drop_left _ _
    rw [List.map_cons, List.map_nil, htake, hdrop]
    norm_num [clamp_value, clampThreshold]

/-! ## Cluster occurrence weights (`cluster_lmp_data`, lines 195-213) -/

/-- One step of the weight count (lines 199-202): for one sample, the inner
loop `for k in n_clusters_list: if labels[j] == k: weights_counter[k] += 1`
increments exactly the counter slot equal to the sample label, and no slot
at all when the label lies outside `0 .. n_clusters - 1`. -/
def bump_label : List Nat → Nat → List Nat
  | [], _ => []
  | c :: cs, 0 => (c + 1) :: cs
  | c :: cs, lab + 1 => c :: bump_label cs lab

/-- Counter `weights_counter` (lines 196-202): starting from `np.zeros(n_clusters)`,
count the occurrences of each cluster index among the per-sample labels of
the fit. -/
def weights_counter (n_clusters : Nat) (labels : List Nat) : List Nat :=
  labels.foldl bump_label (List.replicate n_clusters 0)

theorem bump_label_length : ∀ (c : List Nat) (lab : Nat),
    (bump_label c lab).length = c.length := by
  intro c
  induction c with
  | nil => intro lab; rfl
  | cons x xs ih =>
    intro lab
    cases lab with
    | zero => rfl
    | succ lab => simp [bump_label, ih lab]

theorem bump_label_sum : ∀ (c : List Nat) (lab : Nat), lab < c.length →
    (bump_label c lab).sum = c.sum + 1 := by
  intro c
  induction c with
  | nil => intro lab h; simp at h
  | cons x xs ih =>
    intro lab h
    cases lab with
    | zero => simp [bump_label]; omega
    | succ lab =>
      have hlab : lab < xs.length := by simp at h; omega
      simp [bump_label, ih lab hlab]
      omega

theorem bump_label_getElem? : ∀ (ws : List Nat) (lab k : Nat),
    (bump_label ws lab)[k]? =
      Option.map (fun x => if k = lab then x + 1 else x) ws[k]? := by
  intro ws
  induction ws with
  | nil => intro lab k; rfl
  | cons x xs ih =>
    intro lab k
    cases lab with
    | zero =>
      cases k with
      | zero => simp [bump_label]
      | succ k =>
        simp only [bump_label, List.getElem?_cons_succ]
        cases xs[k]? <;> simp
    | succ lab =>
      cases k with
      | zero => simp [bump_label]
      | succ k =>
        simp only [bump_label, List.getElem?_cons_succ, ih lab k]
        by_cases hk : k = lab
        · simp [hk]
        · have hne : ¬ (k + 1 = lab + 1) := by omega
          simp [hk, hne]

theorem foldl_bump_length : ∀ (labels acc : List Nat),
    (labels.foldl bump_label acc).length = acc.length := by
  intro labels
  induction labels with
  | nil => intro acc; rfl
  | cons l rest ih =>
    intro acc
    simp only [List.foldl_cons, ih (bump_label acc l), bump_label_length]

theorem foldl_bump_sum : ∀ (labels acc : List Nat),
    (∀ l ∈ labels, l < acc.length) →
    (labels.foldl bump_label acc).sum = acc.sum + labels.length := by
  intro labels
  induction labels with
  | nil => intro acc _; simp
  | cons l rest ih =>
    intro acc hvalid
    have hl : l < acc.length := hvalid l (by simp)
    have hrest : ∀ x ∈ rest, x < (bump_label acc l).length := by
      intro x hx
      rw [bump_label_length]
      exact hvalid x (by simp [hx])
    simp only [List.foldl_cons, ih (bump_label acc l) hrest,
      bump_label_sum acc l hl, List.length_cons]
    omega

theorem foldl_bump_getElem? : ∀ (labels acc : List Nat) (k : Nat),
    (labels.foldl bump_label acc)[k]? =
      Option.map (fun x => x + labels.count k) acc[k]? := by
  intro labels
  induction labels with
  | nil =>
    intro acc k
    cases hacc : acc[k]? <;> simp [hacc]
  | cons l rest ih =>
    intro acc k
    rw [List.foldl_cons, ih (bump_label acc l) k, bump_label_getElem?]
    cases hacc : acc[k]? with
    | none => simp
    | some x =>
      by_cases hk : k = l
      · subst hk
        simp [List.count_cons]
        omega
      · simp [List.count_cons, hk]

/-- C7: the weight counter built by `cluster_lmp_data` has one slot per
cluster, each slot holds the count of day columns whose fit label is that
cluster, and — provided every label addresses one of the `n` clusters and
the fit labels one sample per day column, the k-means labeling contract —
the weights are natural numbers summing exactly to the number of day
columns of the daily table. -/
theorem weights_counter_spec (hl n : Nat) (raw : List Rat) (labels : List Nat)
    (hsamples : labels.length = (generate_daily_data hl raw).length)
    (hvalid : ∀ l ∈ labels, l < n) :
    (weights_counter n labels).length = n ∧
    (∀ k, k < n → (weights_counter n labels)[k]? = some (labels.count k)) ∧
    (weights_counter n labels).sum = (generate_daily_data hl raw).length := by
  refine ⟨?_, ?_, ?_⟩
  · rw [weights_counter, foldl_bump_length, List.length_replicate]
  · intro k hk
    rw [weights_counter, foldl_bump_getElem?]
    rw [List.getElem?_replicate, if_pos hk]
    simp
  · rw [weights_counter,
      foldl_bump_sum labels _ (by
        intro l hlmem
        rw [List.length_replicate]
        exact hvalid l hlmem)]
    rw [← hsamples]
    simp

/-- Witness for `weights_counter_spec`: ten samples at horizon 2 give five
day columns; labels `[0, 1, 1, 0, 1]` give weights `[2, 3]` summing to 5. -/
theorem weights_counter_spec_witness :
    (weights_counter 2 [0, 1, 1, 0, 1]).length = 2 ∧
    (∀ k, k < 2 →
      (weights_counter 2 [0, 1, 1, 0, 1])[k]? =
        some (([0, 1, 1, 0, 1] : List Nat).count k)) ∧
    (weights_counter 2 [0, 1, 1, 0, 1]).sum =
      (generate_daily_data 2 (List.replicate 10 (1 : Rat))).length :=
  weights_counter_spec 2 2 (List.replicate 10 (1 : Rat)) [0, 1, 1, 0, 1]
    (by rw [generate_daily_data_eq 2 _ (by norm_num)]; rfl)
    (by decide)

/-! ## Cluster-count selection (`get_optimal_n_clusters`, lines 112-168) -/

/-- python `range(a, b)`: the list `[a, a+1, ..., b-1]`. -/
def pyRange (a b : Nat) : List Nat := (List.range (b - a)).map (fun m => m + a)

/-- The global numpy random-number-generator state, abstracted.  An sklearn
`KMeans(...).fit` created without `random_state` draws from (and advances)
this global state; `np.random.seed(s)` replaces it. -/
abbrev RngState := Nat

/-- An inertia-reporting k-means collaborator: given the daily table (one
sample per day column), a cluster count and the global RNG state, return
the inertia of the fit and the advanced RNG state. -/
abbrev KMeansInertia := List (List Rat) → Nat → RngState → (Rat × RngState)

/-- The inertia sweep of `get_optimal_n_clusters` (lines 133-142):
`np.random.seed(self._seed)` resets the global RNG state to the seed, then
each `KMeans(n_clusters=k).fit(daily_data.transpose())` consumes the state
and appends its inertia. -/
def inertia_sweep (kmeansInertia : KMeansInertia) (seed : RngState)
    (daily_data : List (List Rat)) (k_values : List Nat) : List Rat :=
  (k_values.foldl
    (fun acc k =>
      let step := kmeansInertia daily_data k acc.2
      (acc.1 ++ [step.1], step.2))
    (([] : List Rat), seed)).1

/-- Method `get_optimal_n_clusters` (lines 112-168).  The knee detector is the
external `KneeLocator` collaborator, passed as a function; the diagnostic
print and plot are side effects outside the contract and are dropped.
After `n_clusters = elbow_point.knee`, the guard `if n_clusters + 2 >=
kmax` evaluates `None + 2` whenever the knee detector found no elbow,
which raises a `TypeError` in Python — the `.error` branch below.  When a
knee exists the guard merely logs an advisory warning. -/
def get_optimal_n_clusters (kmeansInertia : KMeansInertia)
    (kneeLocator : List Nat → List Rat → Option Nat)
    (seed : RngState) (daily_data : List (List Rat))
    (kmin kmax : Option Nat) : Except String (Option Nat × List Rat) :=
  let kminv := kmin.getD 4
  let kmaxv := kmax.getD 30
  let k_values := pyRange kminv kmaxv
  let inertia_values := inertia_sweep kmeansInertia seed daily_data k_values
  match kneeLocator k_values inertia_values with
  | none => .error "TypeError: unsupported operand types for + (NoneType and int)"
  | some nc => .ok (some nc, inertia_values)

/-- A concrete inertia collaborator for witnesses: inertia 0, RNG advanced. -/
def constInertia : KMeansInertia := fun _ _ rng => (0, rng + 1)

/-- C4 counterexample: on a concrete daily table, when the knee detector
reports no elbow, `get_optimal_n_clusters` does not hand a null cluster
count back to the caller — it raises a `TypeError` at the
`n_clusters + 2 >= kmax` proximity check. -/
theorem get_optimal_n_clusters_none_raises :
    get_optimal_n_clusters constInertia (fun _ _ => none) 20 [[1], [2]] none none =
      .error "TypeError: unsupported operand types for + (NoneType and int)" := rfl

/-- C4 (amended): if the knee detector finds no elbow the routine raises a
`TypeError` at the kmax-proximity check instead of returning a null count;
when a knee `k` is found it returns `k` together with the inertia values
recorded during the sweep. -/
theorem get_optimal_n_clusters_spec (kmeansInertia : KMeansInertia)
    (kneeLocator : List Nat → List Rat → Option Nat)
    (seed : RngState) (daily_data : List (List Rat)) (kmin kmax : Option Nat) :
    (kneeLocator (pyRange (kmin.getD 4) (kmax.getD 30))
        (inertia_sweep kmeansInertia seed daily_data
          (pyRange (kmin.getD 4) (kmax.getD 30))) = none →
      get_optimal_n_clusters kmeansInertia kneeLocator seed daily_data kmin kmax =
        .error "TypeError: unsupported operand types for + (NoneType and int)") ∧
    (∀ k : Nat, kneeLocator (pyRange (kmin.getD 4) (kmax.getD 30))
        (inertia_sweep kmeansInertia seed daily_data
          (pyRange (kmin.getD 4) (kmax.getD 30))) = some k →
      get_optimal_n_clusters kmeansInertia kneeLocator seed daily_data kmin kmax =
        .ok (some k,
          inertia_sweep kmeansInertia seed daily_data
            (pyRange (kmin.getD 4) (kmax.getD 30)))) := by
  constructor
  · intro hnone
    simp only [get_optimal_n_clusters, hnone]
  · intro k hsome
    simp only [get_optimal_n_clusters, hsome]

/-- Witness for `get_optimal_n_clusters_spec`: a knee detector that always
reports 7 makes the routine return 7 with the sweep inertia list. -/
theorem get_optimal_n_clusters_spec_witness :
    get_optimal_n_clusters constInertia (fun _ _ => some 7) 20 [[1]] none none =
      .ok (some 7, inertia_sweep constInertia 20 [[1]] (pyRange 4 30)) :=
  (get_optimal_n_clusters_spec constInertia (fun _ _ => some 7) 20 [[1]]
    none none).2 7 rfl

/-! ## Derived per-period expressions and the redefinition guard
(`add_ramping_constraints` lines 355-367, `add_startup_shutdown`
lines 411-421) -/

/-- One period block of the multiperiod model: the aggregate `op_mode` and
`startup` Expressions if they have been declared on the block, and the
`(op_mode, startup)` contributions of the attached `OperationModelData`
sub-blocks. -/
structure PeriodBlock where
  op_mode : Option Rat
  startup : Option Rat
  operationContribs : List (Rat × Rat)
deriving DecidableEq

/-- Aggregate `sum(blk.op_mode for attached operation blocks)` (lines 361-364). -/
def sum_op_mode (blocks : List (Rat × Rat)) : Rat := (blocks.map Prod.fst).sum

/-- Aggregate `sum(blk.startup for attached operation blocks)` (lines 361-364). -/
def sum_startup (blocks : List (Rat × Rat)) : Rat := (blocks.map Prod.snd).sum

/-- Pyomo component declaration `period[p].name = Expression(...)`: when an
attribute with that name already holds a component, Pyomo implicitly
replaces it (logging a replacement warning).  The second component records
how many existing components were replaced (0 or 1). -/
def declare_expr (cur : Option Rat) (v : Rat) : Option Rat × Nat :=
  (some v, if cur.isSome then 1 else 0)

/-- Declare the two derived Expressions on one period block (the shared
loop body of lines 356-367 and 411-421); also counts replacements. -/
def define_period_expressions (p : PeriodBlock) : PeriodBlock × Nat :=
  let r := declare_expr p.op_mode (sum_op_mode p.operationContribs)
  let s := declare_expr p.startup (sum_startup p.operationContribs)
  ({ p with op_mode := r.1, startup := s.1 }, r.2 + s.2)

/-- The expression-definition phase of `add_ramping_constraints`
(lines 355-367): guarded by `period[1,1].find_component('op_mode') == None`
— the first period block is probed, and when the component already exists
the whole definition loop is skipped.  Returns the new period list and the
number of component replacements performed. -/
def add_ramping_expressions (periods : List PeriodBlock) :
    List PeriodBlock × Nat :=
  match periods.head? with
  | none => (periods, 0)
  | some p0 =>
    if p0.op_mode.isSome then (periods, 0)
    else
      (periods.map (fun p => (define_period_expressions p).1),
       (periods.map (fun p => (define_period_expressions p).2)).sum)

/-- The expression-definition phase of `add_startup_shutdown`
(lines 411-421): the same loop, but with no guard — the Expressions are
declared unconditionally on every call. -/
def add_startup_shutdown_expressions (periods : List PeriodBlock) :
    List PeriodBlock × Nat :=
  (periods.map (fun p => (define_period_expressions p).1),
   (periods.map (fun p => (define_period_expressions p).2)).sum)

/-- C9 counterexample: on a one-period model whose derived expressions were
already created by a first `add_startup_shutdown` call, a second call does
not leave them alone: it performs 2 component redefinitions (implicit
Pyomo replacements), one for `op_mode` and one for `startup`. -/
theorem add_startup_shutdown_redeclares :
    (add_startup_shutdown_expressions
      (add_startup_shutdown_expressions
        [{ op_mode := none, startup := none, operationContribs := [(1, 0)] }]).1).2
      = 2 := rfl

/-- C9 (amended): `add_ramping_constraints` computes the derived
expressions only when the first period block lacks them — calling it on a
model where they exist leaves every period unchanged and replaces nothing;
`add_startup_shutdown`, by contrast, has no such guard: every call declares
both Expressions on every period, replacing 2 components per period when
they already exist (the replacement values coincide with the existing ones
when the attached operation components are unchanged). -/
theorem derived_expression_guard_spec (periods : List PeriodBlock)
    (p0 : PeriodBlock) (rest : List PeriodBlock)
    (hper : periods = p0 :: rest) (hdef : p0.op_mode.isSome) :
    add_ramping_expressions periods = (periods, 0) ∧
    (add_startup_shutdown_expressions periods).2 =
      ((periods.map (fun p =>
        (if p.op_mode.isSome then 1 else 0) +
          (if p.startup.isSome then 1 else 0))).sum) ∧
    ((∀ p ∈ periods, p.op_mode = some (sum_op_mode p.operationContribs) ∧
        p.startup = some (sum_startup p.operationContribs)) →
      (add_startup_shutdown_expressions periods).1 = periods) := by
  subst hper
  refine ⟨?_, ?_, ?_⟩
  · simp only [add_ramping_expressions, List.head?_cons, hdef, if_true]
  · rfl
  · intro hall
    simp only [add_startup_shutdown_expressions]
    conv_rhs => rw [← List.map_id (p0 :: rest)]
    apply List.map_congr_left
    intro p hp
    obtain ⟨hom, hsu⟩ := hall p hp
    simp [define_period_expressions, declare_expr, ← hom, ← hsu]

/-- A one-period model already carrying its derived expressions, used in
the witness below. -/
def demoPeriodBlock : PeriodBlock :=
  { op_mode := some 1, startup := some 0, operationContribs := [(1, 0)] }

/-- Witness for `derived_expression_guard_spec` on a concrete one-period
model already carrying its derived expressions. -/
theorem derived_expression_guard_spec_witness :
    add_ramping_expressions [demoPeriodBlock] = ([demoPeriodBlock], 0) ∧
    (add_startup_shutdown_expressions [demoPeriodBlock]).2 =
      (([demoPeriodBlock] : List PeriodBlock).map (fun p =>
        (if p.op_mode.isSome then 1 else 0) +
          (if p.startup.isSome then 1 else 0))).sum ∧
    ((∀ p ∈ [demoPeriodBlock],
        p.op_mode = some (sum_op_mode p.operationContribs) ∧
          p.startup = some (sum_startup p.operationContribs)) →
      (add_startup_shutdown_expressions [demoPeriodBlock]).1 =
        [demoPeriodBlock]) :=
  derived_expression_guard_spec [demoPeriodBlock] demoPeriodBlock [] rfl rfl

/-! ## Reconfiguration, clustering, and the price-parameter loader
(`reconfigure_raw_data` lines 85-110, `cluster_lmp_data` lines 170-215,
`append_lmp_data` lines 217-305) -/

/-- The k-means collaborator of `cluster_lmp_data`: given the samples (one
per day column), a cluster count and the global RNG state, return the
centroid rows, one label per sample, and the advanced RNG state
(`KMeans` is created without `random_state`, so the fit consumes the
global numpy state). -/
abbrev KMeansFit :=
  List (List Rat) → Nat → RngState → (List (List Rat) × List Nat × RngState)

/-- A pandas object handed to `reconfigure_raw_data`: either a whole sheet
(`DataFrame`: a list of columns, the first two being the date/time and
scenario-label columns) or a single column (`Series`, which carries no
`columns` attribute). -/
inductive PandasData where
  | frame (columns : List (List Rat))
  | series (values : List Rat)

/-- Method `reconfigure_raw_data` (lines 85-110): read `raw_data.columns` (an
`AttributeError` when the input is a Series), drop the first two columns,
and build the daily table from the first remaining scenario column
(`for i in scenarios[0:1]`).  When no scenario column remains the loop body
never runs and the later read of `daily_data` is an `UnboundLocalError`.
The Python method also returns `scenarios`, which no caller uses. -/
def reconfigure_raw_data (hl : Nat) (raw_data : PandasData) :
    Except String (List (List Rat)) :=
  match raw_data with
  | .series _ =>
    .error "AttributeError: Series object has no attribute columns"
  | .frame cols =>
    match (cols.drop 2).head? with
    | none => .error "UnboundLocalError: daily_data referenced before assignment"
    | some first_scenario => .ok (generate_daily_data hl first_scenario)

/-- Method `cluster_lmp_data` (lines 170-215): reconfigure the raw data, fit
k-means on the transposed daily table (our daily table is already the list
of day samples), clamp the centroids, count the weights.  The successful
payload carries the dicts the Python method builds: column `d` of
`lmp_data` is centroid `d - 1` keyed by hour offsets `0 ..`, and
`weights[0][d]` is slot `d - 1` of the counter.  The RNG state is returned
alongside, already advanced whenever the fit ran. -/
def cluster_lmp_data (kfit : KMeansFit) (hl : Nat) (raw_data : PandasData)
    (n_clusters : Nat) (rng : RngState) :
    Except String (List (List Rat) × List Nat) × RngState :=
  match reconfigure_raw_data hl raw_data with
  | .error e => (.error e, rng)
  | .ok daily_data =>
    let fit := kfit daily_data n_clusters rng
    match clamp_centroids n_clusters fit.1 with
    | .error e => (.error e, fit.2.2)
    | .ok cs => (.ok (cs, weights_counter n_clusters fit.2.1), fit.2.2)

/-- Pyomo `RangeSet(a, b)`: the list `[a, ..., b]`, empty when `b < a`;
`RangeSet(n)` is `rangeSet 1 n`. -/
def rangeSet (a b : Nat) : List Nat :=
  (List.range (b + 1 - a)).map (fun m => m + a)

/-- Dict access `lmp_data[d][t]` in the population loops: column `d` of the
representative-day frame is centroid `d - 1`, whose row keys are the hour
offsets `0 .. len - 1`; a missing key raises a `KeyError`. -/
def lmp_lookup (cs : List (List Rat)) (d t : Nat) : Except String Rat :=
  match cs[d - 1]? with
  | none => .error "KeyError: day key missing in lmp_data"
  | some col =>
    match col[t]? with
    | none => .error "KeyError: hour key missing in lmp_data"
    | some v => .ok v

/-- Dict access `weights[0][d]`: slot `d - 1` of the weight counter,
a float in Python, hence a rational here. -/
def weight_lookup (ws : List Nat) (d : Nat) : Except String Rat :=
  match ws[d - 1]? with
  | none => .error "KeyError: day key missing in weights"
  | some w => .ok (w : Rat)

/-- The inner population loop over hours for one day `d`:
`for t in set_time: LMP[t, d] = lmp_data[d][t]`. -/
def populate_day_row (cs : List (List Rat)) (d : Nat) :
    List Nat → Except String (List ((Nat × Nat) × Rat))
  | [] => .ok []
  | t :: ts =>
    match lmp_lookup cs d t with
    | .error e => .error e
    | .ok v =>
      match populate_day_row cs d ts with
      | .error e => .error e
      | .ok rest => .ok (((t, d), v) :: rest)

/-- The outer population loop over days: `for d in set_days: ...`. -/
def populate_lmp (cs : List (List Rat)) (times : List Nat) :
    List Nat → Except String (List ((Nat × Nat) × Rat))
  | [] => .ok []
  | d :: ds =>
    match populate_day_row cs d times with
    | .error e => .error e
    | .ok row =>
      match populate_lmp cs times ds with
      | .error e => .error e
      | .ok rest => .ok (row ++ rest)

/-- Assignment `WEIGHTS[d] = weights[0][d]` for every day of `set_days`.  The Python
assignment sits inside the hour loop (so it is reached only when the hour
set is nonempty; the repeated overwrites all store the same value). -/
def populate_weights (ws : List Nat) :
    List Nat → Except String (List (Nat × Rat))
  | [] => .ok []
  | d :: ds =>
    match weight_lookup ws d with
    | .error e => .error e
    | .ok w =>
      match populate_weights ws ds with
      | .error e => .error e
      | .ok rest => .ok ((d, w) :: rest)

/-- The model state assigned by the single-year representative-day branch
of `append_lmp_data`. -/
structure SingleYearRepState where
  set_days : List Nat
  set_time : List Nat
  LMP : List ((Nat × Nat) × Rat)
  WEIGHTS : List (Nat × Rat)

/-- Assembling the single-year branch result from the clustering outcome:
the index sets are already assigned when the clustering runs, so they
survive any exception; the dicts remain empty on failure. -/
def single_rep_assemble (days times : List Nat)
    (clusterOutcome : Except String (List (List Rat) × List Nat))
    (rng2 : RngState) : SingleYearRepState × Option String × RngState :=
  match clusterOutcome with
  | .error e => (⟨days, times, [], []⟩, some e, rng2)
  | .ok (cs, ws) =>
    match populate_lmp cs times days with
    | .error e => (⟨days, times, [], []⟩, some e, rng2)
    | .ok lmp =>
      match (if times.isEmpty then Except.ok [] else populate_weights ws days) with
      | .error e => (⟨days, times, [], []⟩, some e, rng2)
      | .ok weights => (⟨days, times, lmp, weights⟩, none, rng2)

/-- Single-year representative-day branch of `append_lmp_data`
(lines 273-293): assign `set_days = RangeSet(1, n_clusters)`,
`_n_time_points = horizon_length or 24`,
`set_time = RangeSet(_n_time_points - 1)`, cluster the whole sheet (a
DataFrame), then populate `LMP[t, d]` and `WEIGHTS[d]`.  Returns the model
state reached, the pending exception if one was raised, and the final
global RNG state.  No seeding happens anywhere on this path — the call
consumes whatever global state it inherits. -/
def append_lmp_data_single_rep (kfit : KMeansFit) (hl : Nat)
    (full_data : List (List Rat)) (n_clusters : Nat)
    (horizon_length : Option Nat) (rng : RngState) :
    SingleYearRepState × Option String × RngState :=
  let ntp := horizon_length.getD 24
  let res := cluster_lmp_data kfit hl (.frame full_data) n_clusters rng
  single_rep_assemble (rangeSet 1 n_clusters) (rangeSet 1 (ntp - 1)) res.1 res.2

/-- The model state assigned by the multi-year representative-day branch. -/
structure MultiYearRepState where
  set_years : List Int
  set_days : List Nat
  set_time : List Nat
  LMP : List ((Nat × Nat × Int) × Rat)
  WEIGHTS : List ((Nat × Int) × Rat)

/-- The per-year loop of the multi-year representative-day branch
(lines 241-251): look up the year column (a Series), cluster it, and
extend the dicts with keys `(t, d, year)` and `(d, year)`; the loop stops
at the first exception, keeping what was written so far.  Year labels are
modelled as integers, so the `int(year)` conversion is the identity. -/
def multi_year_rep_loop (kfit : KMeansFit) (hl n_clusters : Nat)
    (full_data : List (Int × List Rat)) (days times : List Nat) :
    List Int → RngState → List ((Nat × Nat × Int) × Rat) →
      List ((Nat × Int) × Rat) →
      List ((Nat × Nat × Int) × Rat) × List ((Nat × Int) × Rat) ×
        Option String × RngState
  | [], rng, lmpAcc, wAcc => (lmpAcc, wAcc, none, rng)
  | year :: rest, rng, lmpAcc, wAcc =>
    match full_data.lookup year with
    | none => (lmpAcc, wAcc, some "KeyError: year column missing", rng)
    | some price_data =>
      match cluster_lmp_data kfit hl (.series price_data) n_clusters rng with
      | (.error e, rng2) => (lmpAcc, wAcc, some e, rng2)
      | (.ok (cs, ws), rng2) =>
        match populate_lmp cs times days with
        | .error e => (lmpAcc, wAcc, some e, rng2)
        | .ok lmp =>
          match (if times.isEmpty then Except.ok []
              else populate_weights ws days) with
          | .error e => (lmpAcc, wAcc, some e, rng2)
          | .ok weights =>
            multi_year_rep_loop kfit hl n_clusters full_data days times rest
              rng2 (lmpAcc ++ lmp.map (fun e => ((e.1.1, e.1.2, year), e.2)))
              (wAcc ++ weights.map (fun e => ((e.1, year), e.2)))

/-- Multi-year representative-day branch of `append_lmp_data`
(lines 231-253): assign `set_years`, `set_days = RangeSet(1, n_clusters)`,
`_n_time_points = horizon_length or 24`,
`set_time = RangeSet(_n_time_points)` — note the upper bound, one more
than the single-year branch — then loop over the year columns. -/
def append_lmp_data_multi_rep (kfit : KMeansFit) (hl : Nat)
    (full_data : List (Int × List Rat)) (column_name : List Int)
    (n_clusters : Nat) (horizon_length : Option Nat) (rng : RngState) :
    MultiYearRepState × Option String × RngState :=
  let ntp := horizon_length.getD 24
  let days := rangeSet 1 n_clusters
  let times := rangeSet 1 ntp
  let res := multi_year_rep_loop kfit hl n_clusters full_data days times
    column_name rng [] []
  (⟨column_name, days, times, res.1, res.2.1⟩, res.2.2.1, res.2.2.2)

theorem populate_day_row_keys (cs : List (List Rat)) (d : Nat) :
    ∀ (ts : List Nat) (row : List ((Nat × Nat) × Rat)),
      populate_day_row cs d ts = .ok row →
      row.map Prod.fst = ts.map (fun t => (t, d)) := by
  intro ts
  induction ts with
  | nil =>
    intro row hrow
    simp only [populate_day_row] at hrow
    cases hrow
    rfl
  | cons t rest ih =>
    intro row hrow
    simp only [populate_day_row] at hrow
    cases hlk : lmp_lookup cs d t with
    | error e => rw [hlk] at hrow; cases hrow
    | ok v =>
      rw [hlk] at hrow
      cases hrec : populate_day_row cs d rest with
      | error e => rw [hrec] at hrow; cases hrow
      | ok tail =>
        rw [hrec] at hrow
        cases hrow
        simp only [List.map_cons]
        rw [ih tail hrec]

theorem populate_lmp_keys (cs : List (List Rat)) (times : List Nat) :
    ∀ (ds : List Nat) (lmp : List ((Nat × Nat) × Rat)),
      populate_lmp cs times ds = .ok lmp →
      lmp.map Prod.fst = ds.bind (fun d => times.map (fun t => (t, d))) := by
  intro ds
  induction ds with
  | nil =>
    intro lmp hlmp
    simp only [populate_lmp] at hlmp
    cases hlmp
    rfl
  | cons d rest ih =>
    intro lmp hlmp
    simp only [populate_lmp] at hlmp
    cases hrow : populate_day_row cs d times with
    | error e => rw [hrow] at hlmp; cases hlmp
    | ok row =>
      rw [hrow] at hlmp
      cases hrec : populate_lmp cs times rest with
      | error e => rw [hrec] at hlmp; cases hlmp
      | ok tail =>
        rw [hrec] at hlmp
        cases hlmp
        simp only [List.map_append]
        rw [populate_day_row_keys cs d times row hrow, ih tail hrec]
        rfl

theorem populate_weights_keys (ws : List Nat) :
    ∀ (ds : List Nat) (w : List (Nat × Rat)),
      populate_weights ws ds = .ok w → w.map Prod.fst = ds := by
  intro ds
  induction ds with
  | nil =>
    intro w hw
    simp only [populate_weights] at hw
    cases hw
    rfl
  | cons d rest ih =>
    intro w hw
    simp only [populate_weights] at hw
    cases hlk : weight_lookup ws d with
    | error e => rw [hlk] at hw; cases hw
    | ok v =>
      rw [hlk] at hw
      cases hrec : populate_weights ws rest with
      | error e => rw [hrec] at hw; cases hw
      | ok tail =>
        rw [hrec] at hw
        cases hw
        simp only [List.map_cons]
        rw [ih tail hrec]

theorem single_rep_assemble_sets (days times : List Nat)
    (outcome : Except String (List (List Rat) × List Nat)) (rng2 : RngState) :
    (single_rep_assemble days times outcome rng2).1.set_days = days ∧
    (single_rep_assemble days times outcome rng2).1.set_time = times := by
  unfold single_rep_assemble
  constructor <;> (repeat' split) <;> rfl

theorem single_rep_assemble_rng_invariant (days times : List Nat)
    (outcome : Except String (List (List Rat) × List Nat)) (s1 s2 : RngState) :
    (single_rep_assemble days times outcome s1).1 =
      (single_rep_assemble days times outcome s2).1 ∧
    (single_rep_assemble days times outcome s1).2.1 =
      (single_rep_assemble days times outcome s2).2.1 := by
  unfold single_rep_assemble
  constructor <;> (repeat' split) <;> rfl

theorem single_rep_assemble_success_keys (days times : List Nat)
    (outcome : Except String (List (List Rat) × List Nat)) (rng2 : RngState)
    (hok : (single_rep_assemble days times outcome rng2).2.1 = none) :
    (single_rep_assemble days times outcome rng2).1.LMP.map Prod.fst =
      days.bind (fun d => times.map (fun t => (t, d))) ∧
    (single_rep_assemble days times outcome rng2).1.WEIGHTS.map Prod.fst =
      (if times.isEmpty then [] else days) := by
  cases outcome with
  | error e => simp [single_rep_assemble] at hok
  | ok payload =>
    rcases payload with ⟨cs, ws⟩
    simp only [single_rep_assemble] at hok ⊢
    cases hlmp : populate_lmp cs times days with
    | error e => simp [hlmp] at hok
    | ok lmp =>
      simp only [hlmp] at hok ⊢
      by_cases ht : times.isEmpty
      · have hte : times = [] := List.isEmpty_iff.mp ht
        subst hte
        simp only [List.isEmpty_nil, if_true, List.map_nil] at hok ⊢
        exact ⟨populate_lmp_keys cs [] days lmp hlmp, trivial⟩
      · rw [if_neg ht] at hok ⊢
        cases hw : populate_weights ws days with
        | error e => simp [hw] at hok
        | ok w =>
          simp only [hw] at hok ⊢
          rw [if_neg ht]
          exact ⟨populate_lmp_keys cs times days lmp hlmp,
            populate_weights_keys ws days w hw⟩

/-- A three-column sheet (date, scenario label, one price column `[1, 1]`)
used in concrete runs below; the price column holds one two-hour day. -/
def demoSheet : List (List Rat) := [[0, 0], [0, 0], [1, 1]]

/-- A k-means collaborator whose centroids depend on the global RNG state
it consumes (as an unseeded k-means with randomized init does): centroid
value `rng + 1` everywhere, one label per sample, state advanced by one. -/
def rngSensitiveFit : KMeansFit := fun daily n rng =>
  (List.replicate n (List.replicate 24 ((rng + 1 : Nat) : Rat)),
   daily.map (fun _ => 0), rng + 1)

theorem reconfigure_demo :
    reconfigure_raw_data 2 (.frame demoSheet) = .ok [[1, 1]] := by
  have hg : generate_daily_data 2 ([1, 1] : List Rat) = [[1, 1]] := by
    rw [generate_daily_data_eq 2 _ (by norm_num)]
    rfl
  simp [reconfigure_raw_data, demoSheet, hg]

theorem cluster_demo (rng : RngState) :
    cluster_lmp_data rngSensitiveFit 2 (.frame demoSheet) 1 rng =
      (.ok ([List.replicate 24 ((rng + 1 : Nat) : Rat)], [1]), rng + 1) := by
  have hv : ¬ (((rng + 1 : Nat) : Rat) < clampThreshold) := by
    have h0 : (1 : Rat) ≤ ((rng + 1 : Nat) : Rat) := by
      exact_mod_cast Nat.succ_le_succ (Nat.zero_le rng)
    intro hcon
    rw [clampThreshold] at hcon
    linarith
  have hclamp : clamp_centroids 1 [List.replicate 24 ((rng + 1 : Nat) : Rat)] =
      .ok [List.replicate 24 ((rng + 1 : Nat) : Rat)] := by
    have h := clamp_centroids_ok [List.replicate 24 ((rng + 1 : Nat) : Rat)]
      (by intro x hx; simp at hx; subst hx; simp)
    simp only [List.length_cons, List.length_nil] at h
    rw [h, List.map_cons, List.map_nil]
    rw [List.take_of_length_le (by simp), List.drop_eq_nil_of_le (by simp)]
    rw [List.map_replicate, clamp_value, if_neg hv]
    simp
  simp only [cluster_lmp_data, reconfigure_demo, rngSensitiveFit,
    List.replicate_one, List.map_cons, List.map_nil]
  rw [hclamp]
  rfl

theorem append_demo (rng : RngState) :
    append_lmp_data_single_rep rngSensitiveFit 2 demoSheet 1 (some 2) rng =
      (⟨[1], [1], [((1, 1), ((rng + 1 : Nat) : Rat))], [(1, ((1 : Nat) : Rat))]⟩,
        none, rng + 1) := by
  simp only [append_lmp_data_single_rep, cluster_demo rng]
  rfl

/-- C2 counterexample: two back-to-back calls of the single-year
representative-day loader with identical sheet, column, cluster, horizon
arguments (and an untouched seed attribute) finish without error yet
produce different LMP mappings: `append_lmp_data` never seeds the global
RNG state, so the unseeded k-means of the second call consumes the state
the first call left behind. -/
theorem append_lmp_data_two_calls_differ :
    (append_lmp_data_single_rep rngSensitiveFit 2 demoSheet 1 (some 2) 0).2.1 =
      none ∧
    (append_lmp_data_single_rep rngSensitiveFit 2 demoSheet 1 (some 2)
      (append_lmp_data_single_rep rngSensitiveFit 2 demoSheet 1
        (some 2) 0).2.2).2.1 = none ∧
    (append_lmp_data_single_rep rngSensitiveFit 2 demoSheet 1 (some 2) 0).1.LMP ≠
      (append_lmp_data_single_rep rngSensitiveFit 2 demoSheet 1 (some 2)
        (append_lmp_data_single_rep rngSensitiveFit 2 demoSheet 1
          (some 2) 0).2.2).1.LMP := by
  have h1 := append_demo 0
  have h2 := append_demo 1
  refine ⟨by rw [h1], ?_, ?_⟩
  · rw [h1]
    show (append_lmp_data_single_rep rngSensitiveFit 2 demoSheet 1
      (some 2) 1).2.1 = none
    rw [h2]
  · rw [h1]
    show [((1, 1), ((0 + 1 : Nat) : Rat))] ≠
      (append_lmp_data_single_rep rngSensitiveFit 2 demoSheet 1
        (some 2) 1).1.LMP
    rw [h2]
    intro hcon
    rw [List.cons.injEq, Prod.mk.injEq] at hcon
    have hval : ((0 + 1 : Nat) : Rat) = ((1 + 1 : Nat) : Rat) := hcon.1.2
    norm_num at hval

theorem cluster_lmp_data_rng_independent (kfit : KMeansFit) (hl n_clusters : Nat)
    (full_data : List (List Rat)) (rng1 rng2 : RngState)
    (hk : ∀ daily k r r', (kfit daily k r).1 = (kfit daily k r').1 ∧
        (kfit daily k r).2.1 = (kfit daily k r').2.1) :
    (cluster_lmp_data kfit hl (.frame full_data) n_clusters rng1).1 =
      (cluster_lmp_data kfit hl (.frame full_data) n_clusters rng2).1 := by
  unfold cluster_lmp_data
  cases hre : reconfigure_raw_data hl (.frame full_data) with
  | error e => simp only [hre]
  | ok daily =>
    obtain ⟨hcent, hlab⟩ := hk daily n_clusters rng1 rng2
    simp only [hre]
    rw [← hcent, ← hlab]
    cases hc : clamp_centroids n_clusters (kfit daily n_clusters rng1).1 <;>
      simp [hc]

/-- C2 (amended): two sequential calls of the single-year
representative-day loader with identical arguments always produce identical
time and day index sets; and when the k-means collaborator's centroids and
labels do not depend on the RNG state it is handed (a seeded fit with a
fixed init strategy), the two calls also agree on the entire resulting
state — LMP, WEIGHTS and error status.  The code itself never seeds the
global state inside `append_lmp_data` (the `np.random.seed(self._seed)`
call lives only in `get_optimal_n_clusters`), so nothing makes the second
unseeded fit see the state the first one saw. -/
theorem append_lmp_data_single_rep_determinism (kfit : KMeansFit)
    (hl n_clusters : Nat) (full_data : List (List Rat))
    (horizon_length : Option Nat) (rng1 rng2 : RngState) :
    ((append_lmp_data_single_rep kfit hl full_data n_clusters horizon_length
        rng1).1.set_days =
      (append_lmp_data_single_rep kfit hl full_data n_clusters horizon_length
        rng2).1.set_days ∧
     (append_lmp_data_single_rep kfit hl full_data n_clusters horizon_length
        rng1).1.set_time =
      (append_lmp_data_single_rep kfit hl full_data n_clusters horizon_length
        rng2).1.set_time) ∧
    ((∀ daily k r r', (kfit daily k r).1 = (kfit daily k r').1 ∧
        (kfit daily k r).2.1 = (kfit daily k r').2.1) →
      (append_lmp_data_single_rep kfit hl full_data n_clusters horizon_length
          rng1).1 =
        (append_lmp_data_single_rep kfit hl full_data n_clusters horizon_length
          rng2).1 ∧
      (append_lmp_data_single_rep kfit hl full_data n_clusters horizon_length
          rng1).2.1 =
        (append_lmp_data_single_rep kfit hl full_data n_clusters horizon_length
          rng2).2.1) := by
  constructor
  · constructor
    · exact ((single_rep_assemble_sets (rangeSet 1 n_clusters)
        (rangeSet 1 (horizon_length.getD 24 - 1))
        (cluster_lmp_data kfit hl (.frame full_data) n_clusters rng1).1
        (cluster_lmp_data kfit hl (.frame full_data) n_clusters rng1).2).1).trans
        ((single_rep_assemble_sets (rangeSet 1 n_clusters)
          (rangeSet 1 (horizon_length.getD 24 - 1))
          (cluster_lmp_data kfit hl (.frame full_data) n_clusters rng2).1
          (cluster_lmp_data kfit hl (.frame full_data) n_clusters rng2).2).1).symm
    · exact ((single_rep_assemble_sets (rangeSet 1 n_clusters)
        (rangeSet 1 (horizon_length.getD 24 - 1))
        (cluster_lmp_data kfit hl (.frame full_data) n_clusters rng1).1
        (cluster_lmp_data kfit hl (.frame full_data) n_clusters rng1).2).2).trans
        ((single_rep_assemble_sets (rangeSet 1 n_clusters)
          (rangeSet 1 (horizon_length.getD 24 - 1))
          (cluster_lmp_data kfit hl (.frame full_data) n_clusters rng2).1
          (cluster_lmp_data kfit hl (.frame full_data) n_clusters rng2).2).2).symm
  · intro hk
    have hcl := cluster_lmp_data_rng_independent kfit hl n_clusters full_data
      rng1 rng2 hk
    have base := single_rep_assemble_rng_invariant (rangeSet 1 n_clusters)
      (rangeSet 1 (horizon_length.getD 24 - 1))
      (cluster_lmp_data kfit hl (.frame full_data) n_clusters rng1).1
      (cluster_lmp_data kfit hl (.frame full_data) n_clusters rng1).2
      (cluster_lmp_data kfit hl (.frame full_data) n_clusters rng2).2
    constructor
    · calc (append_lmp_data_single_rep kfit hl full_data n_clusters
            horizon_length rng1).1
          = (single_rep_assemble (rangeSet 1 n_clusters)
              (rangeSet 1 (horizon_length.getD 24 - 1))
              (cluster_lmp_data kfit hl (.frame full_data) n_clusters rng1).1
              (cluster_lmp_data kfit hl (.frame full_data) n_clusters
                rng2).2).1 := base.1
        _ = (append_lmp_data_single_rep kfit hl full_data n_clusters
              horizon_length rng2).1 := by
            rw [hcl]
            rfl

    · calc (append_lmp_data_single_rep kfit hl full_data n_clusters
            horizon_length rng1).2.1
          = (single_rep_assemble (rangeSet 1 n_clusters)
              (rangeSet 1 (horizon_length.getD 24 - 1))
              (cluster_lmp_data kfit hl (.frame full_data) n_clusters rng1).1
              (cluster_lmp_data kfit hl (.frame full_data) n_clusters
                rng2).2).2.1 := base.2
        _ = (append_lmp_data_single_rep kfit hl full_data n_clusters
              horizon_length rng2).2.1 := by
            rw [hcl]
            rfl

/-- An RNG-independent k-means collaborator (it still advances the state,
but its centroids and labels ignore it). -/
def constFit : KMeansFit := fun daily n rng =>
  (List.replicate n (List.replicate 24 (1 : Rat)), daily.map (fun _ => 0),
   rng + 1)

/-- Witness for `append_lmp_data_single_rep_determinism` with an
RNG-independent fit at two different incoming states. -/
theorem append_lmp_data_single_rep_determinism_witness :
    ((append_lmp_data_single_rep constFit 2 demoSheet 1 (some 2) 0).1.set_days =
      (append_lmp_data_single_rep constFit 2 demoSheet 1 (some 2) 5).1.set_days) ∧
    ((append_lmp_data_single_rep constFit 2 demoSheet 1 (some 2) 0).1 =
      (append_lmp_data_single_rep constFit 2 demoSheet 1 (some 2) 5).1) ∧
    ((append_lmp_data_single_rep constFit 2 demoSheet 1 (some 2) 0).2.1 =
      (append_lmp_data_single_rep constFit 2 demoSheet 1 (some 2) 5).2.1) :=
  have base := append_lmp_data_single_rep_determinism constFit 2 1 demoSheet
    (some 2) 0 5
  ⟨base.1.1, (base.2 (fun _ _ _ _ => ⟨rfl, rfl⟩)).1,
    (base.2 (fun _ _ _ _ => ⟨rfl, rfl⟩)).2⟩

/-- C5 counterexample: a concrete multi-year representative-day call (one
resolvable year column, two clusters, horizon 24) assigns the index sets
but populates nothing: the year column reaches `cluster_lmp_data` as a
pandas Series, and `reconfigure_raw_data` raises an `AttributeError` on it
before any LMP or WEIGHTS entry is written — so this branch does not, as
claimed, populate dicts keyed by `(time, day, year)` and `(day, year)`. -/
theorem append_lmp_data_multi_rep_raises :
    append_lmp_data_multi_rep (fun _ _ rng => ([], [], rng)) 24
        [(2020, List.replicate 48 1)] [2020] 2 (some 24) 0 =
      (⟨[2020], rangeSet 1 2, rangeSet 1 24, [], []⟩,
        some "AttributeError: Series object has no attribute columns", 0) := rfl

/-- C5 (amended): the single-year representative-day branch sets
`set_days = RangeSet(1, n_clusters)` and
`set_time = RangeSet(n_time_points - 1)`, while the multi-year branch sets
`set_days = RangeSet(1, n_clusters)`, `set_time = RangeSet(n_time_points)`
(one more than the single-year branch) and `set_years` to the year labels.
When the single-year branch finishes without an exception, its LMP dict is
keyed by the `(time, day)` products and its WEIGHTS dict by the days (the
hour set being nonempty).  The multi-year branch, however, never reaches
its population loop's writes: for any first resolvable year column the
clustering call receives a Series, `reconfigure_raw_data` raises an
`AttributeError`, and the branch stops with LMP and WEIGHTS left empty. -/
theorem append_lmp_branch_spec (kfit : KMeansFit) (hl n_clusters : Nat)
    (full_data : List (List Rat)) (mdata : List (Int × List Rat))
    (column_name : List Int) (horizon_length : Option Nat) (rng : RngState) :
    (append_lmp_data_single_rep kfit hl full_data n_clusters horizon_length
        rng).1.set_days = rangeSet 1 n_clusters ∧
    (append_lmp_data_single_rep kfit hl full_data n_clusters horizon_length
        rng).1.set_time = rangeSet 1 (horizon_length.getD 24 - 1) ∧
    (append_lmp_data_multi_rep kfit hl mdata column_name n_clusters
        horizon_length rng).1.set_days = rangeSet 1 n_clusters ∧
    (append_lmp_data_multi_rep kfit hl mdata column_name n_clusters
        horizon_length rng).1.set_time = rangeSet 1 (horizon_length.getD 24) ∧
    (append_lmp_data_multi_rep kfit hl mdata column_name n_clusters
        horizon_length rng).1.set_years = column_name ∧
    ((append_lmp_data_single_rep kfit hl full_data n_clusters horizon_length
        rng).2.1 = none →
      (append_lmp_data_single_rep kfit hl full_data n_clusters horizon_length
          rng).1.LMP.map Prod.fst =
        (rangeSet 1 n_clusters).bind
          (fun d => (rangeSet 1 (horizon_length.getD 24 - 1)).map
            (fun t => (t, d))) ∧
      (append_lmp_data_single_rep kfit hl full_data n_clusters horizon_length
          rng).1.WEIGHTS.map Prod.fst =
        (if (rangeSet 1 (horizon_length.getD 24 - 1)).isEmpty then []
          else rangeSet 1 n_clusters)) ∧
    (∀ y ys prices, column_name = y :: ys → mdata.lookup y = some prices →
      (append_lmp_data_multi_rep kfit hl mdata column_name n_clusters
          horizon_length rng).2.1 =
        some "AttributeError: Series object has no attribute columns" ∧
      (append_lmp_data_multi_rep kfit hl mdata column_name n_clusters
          horizon_length rng).1.LMP = [] ∧
      (append_lmp_data_multi_rep kfit hl mdata column_name n_clusters
          horizon_length rng).1.WEIGHTS = []) := by
  refine ⟨?_, ?_, rfl, rfl, rfl, ?_, ?_⟩
  · exact (single_rep_assemble_sets (rangeSet 1 n_clusters)
      (rangeSet 1 (horizon_length.getD 24 - 1))
      (cluster_lmp_data kfit hl (.frame full_data) n_clusters rng).1
      (cluster_lmp_data kfit hl (.frame full_data) n_clusters rng).2).1
  · exact (single_rep_assemble_sets (rangeSet 1 n_clusters)
      (rangeSet 1 (horizon_length.getD 24 - 1))
      (cluster_lmp_data kfit hl (.frame full_data) n_clusters rng).1
      (cluster_lmp_data kfit hl (.frame full_data) n_clusters rng).2).2
  · intro hok
    exact single_rep_assemble_success_keys (rangeSet 1 n_clusters)
      (rangeSet 1 (horizon_length.getD 24 - 1))
      (cluster_lmp_data kfit hl (.frame full_data) n_clusters rng).1
      (cluster_lmp_data kfit hl (.frame full_data) n_clusters rng).2 hok
  · intro y ys prices hcol hlook
    subst hcol
    simp only [append_lmp_data_multi_rep, multi_year_rep_loop, hlook,
      cluster_lmp_data, reconfigure_raw_data]
    simp

/-- Witness for `append_lmp_branch_spec`: a two-hour single-year run that
succeeds (so its key sets are inspectable) next to a multi-year run on a
concrete year table that stops with the `AttributeError`. -/
theorem append_lmp_branch_spec_witness :
    (append_lmp_data_single_rep rngSensitiveFit 2 demoSheet 1 (some 2)
        0).1.set_days = rangeSet 1 1 ∧
    (append_lmp_data_single_rep rngSensitiveFit 2 demoSheet 1 (some 2)
        0).1.set_time = rangeSet 1 1 ∧
    (append_lmp_data_single_rep rngSensitiveFit 2 demoSheet 1 (some 2)
        0).1.LMP.map Prod.fst =
      (rangeSet 1 1).bind (fun d => (rangeSet 1 1).map (fun t => (t, d))) ∧
    (append_lmp_data_single_rep rngSensitiveFit 2 demoSheet 1 (some 2)
        0).1.WEIGHTS.map Prod.fst =
      (if (rangeSet 1 1).isEmpty then [] else rangeSet 1 1) ∧
    (append_lmp_data_multi_rep rngSensitiveFit 2 [(2020, [1, 1])] [2020] 1
        (some 2) 0).2.1 =
      some "AttributeError: Series object has no attribute columns" ∧
    (append_lmp_data_multi_rep rngSensitiveFit 2 [(2020, [1, 1])] [2020] 1
        (some 2) 0).1.LMP = [] ∧
    (append_lmp_data_multi_rep rngSensitiveFit 2 [(2020, [1, 1])] [2020] 1
        (some 2) 0).1.WEIGHTS = [] :=
  have base := append_lmp_branch_spec rngSensitiveFit 2 1 demoSheet
    [(2020, [1, 1])] [2020] (some 2) 0
  have hok : (append_lmp_data_single_rep rngSensitiveFit 2 demoSheet 1 (some 2)
      0).2.1 = none := by rw [append_demo 0]
  have hattr := base.2.2.2.2.2.2 2020 [] [1, 1] rfl rfl
  ⟨base.1, base.2.1, (base.2.2.2.2.2.1 hok).1, (base.2.2.2.2.2.1 hok).2,
    hattr.1, hattr.2.1, hattr.2.2⟩
